import Mathlib

/-!
Verification development for the joke-generator service.

The repository has two Go variants of the same program:
  src/application/main.go  (provider functions are vars returning (value, error))
  src/httpserver/main.go   (provider functions call os.Exit(1) on failures)

Both variants declare identical data types (Names, Joke), an HTTP handler
getRoot composing two remote calls, and helpers getRandomName / getRandomJoke /
returnCompleteJoke.  We embed the request-level control flow shallowly: the
behaviour of the network environment for one outbound call is a FetchOutcome
value, JSON bodies are modelled at the JSON-value level (json.Valid succeeds
exactly when the body parses to a JsonVal), and Go encoding/json unmarshalling
into the two concrete struct types is modelled field by field, including the
ASCII case-insensitive key matching and the treatment of null that
encoding/json performs.
-/

set_option autoImplicit false

/-- JSON values, the parse result of a response body.  Numbers are modelled as
integers; no claim depends on numeric precision. -/
inductive JsonVal where
  | jnull
  | jbool (b : Bool)
  | jnum (n : Int)
  | jstr (s : String)
  | jarr (elems : List JsonVal)
  | jobj (fields : List (String × JsonVal))

/-- ASCII lower-casing of one character, as used by encoding/json when matching
object keys against struct field tags case-insensitively. -/
def asciiLowerChar (c : Char) : Char :=
  if 65 ≤ c.toNat ∧ c.toNat ≤ 90 then Char.ofNat (c.toNat + 32) else c

/-- ASCII lower-casing of a string. -/
def asciiLower (s : String) : String :=
  String.mk (s.data.map asciiLowerChar)

/-- Go struct Names with json tags first_name / last_name
(src/application/main.go lines 24-27, src/httpserver/main.go lines 25-28). -/
structure Names where
  firstName : String
  lastName : String
deriving Repr, DecidableEq

/-- One step of json.Unmarshal into Names: decode one object entry.  A key
matching a field tag (ASCII case-insensitively) must carry a string (sets the
field) or null (leaves the field unchanged); any other value is a type error.
Unknown keys are ignored. -/
def setNamesField (n : Names) (k : String) (v : JsonVal) : Except String Names :=
  if asciiLower k = "first_name" then
    match v with
    | JsonVal.jstr s => Except.ok { n with firstName := s }
    | JsonVal.jnull => Except.ok n
    | _ => Except.error "cannot unmarshal JSON value into field first_name of type string"
  else if asciiLower k = "last_name" then
    match v with
    | JsonVal.jstr s => Except.ok { n with lastName := s }
    | JsonVal.jnull => Except.ok n
    | _ => Except.error "cannot unmarshal JSON value into field last_name of type string"
  else Except.ok n

/-- json.Unmarshal into Names: fold the object entries in order (later
duplicate keys overwrite earlier ones, as in encoding/json). -/
def unmarshalNamesFields : Names → List (String × JsonVal) → Except String Names
  | n, [] => Except.ok n
  | n, (k, v) :: rest =>
    match setNamesField n k v with
    | Except.error m => Except.error m
    | Except.ok n2 => unmarshalNamesFields n2 rest

/-- json.Unmarshal of a JSON value into a zero Names struct: null leaves the
zero value, an object is decoded entry by entry, any other top-level value is
a type error. -/
def unmarshalNames (v : JsonVal) : Except String Names :=
  match v with
  | JsonVal.jnull => Except.ok { firstName := "", lastName := "" }
  | JsonVal.jobj fields => unmarshalNamesFields { firstName := "", lastName := "" } fields
  | _ => Except.error "cannot unmarshal JSON value into Go value of type main.Names"

/-- Decoding of the inner object of Go struct Joke (field Value.Joke with json
tag joke): the accumulator is the current value of j.Value.Joke. -/
def unmarshalValueFields : String → List (String × JsonVal) → Except String String
  | cur, [] => Except.ok cur
  | cur, (k, v) :: rest =>
    if asciiLower k = "joke" then
      match v with
      | JsonVal.jstr s => unmarshalValueFields s rest
      | JsonVal.jnull => unmarshalValueFields cur rest
      | _ => Except.error "cannot unmarshal JSON value into field joke of type string"
    else unmarshalValueFields cur rest

/-- Decoding of the value assigned to key value in Go struct Joke: null leaves
the inner struct unchanged, an object is decoded entry by entry, any other
value is a type error. -/
def unmarshalJokeValue (cur : String) : JsonVal → Except String String
  | JsonVal.jnull => Except.ok cur
  | JsonVal.jobj gs => unmarshalValueFields cur gs
  | _ => Except.error "cannot unmarshal JSON value into field value of type struct"

/-- Top-level object entries of Go struct Joke: only key value (ASCII
case-insensitively) is decoded, all other keys are ignored. -/
def unmarshalJokeFields : String → List (String × JsonVal) → Except String String
  | cur, [] => Except.ok cur
  | cur, (k, v) :: rest =>
    if asciiLower k = "value" then
      match unmarshalJokeValue cur v with
      | Except.error m => Except.error m
      | Except.ok c2 => unmarshalJokeFields c2 rest
    else unmarshalJokeFields cur rest

/-- json.Unmarshal of a JSON value into a zero Joke struct, returning
j.Value.Joke as the sources do (src/application/main.go line 244,
src/httpserver/main.go line 223). -/
def unmarshalJoke (v : JsonVal) : Except String String :=
  match v with
  | JsonVal.jnull => Except.ok ""
  | JsonVal.jobj fields => unmarshalJokeFields "" fields
  | _ => Except.error "cannot unmarshal JSON value into Go value of type main.Joke"

/-- Environment behaviour of one outbound HTTP call, as observed by the
provider functions: client.Do may fail (network error or 30s timeout),
io.ReadAll may fail, or a response arrives carrying a status code and a body.
The body is modelled at the JSON level: none means the body bytes are not
valid JSON (json.Valid false / json.Unmarshal syntax error), some v means the
bytes parse to the JSON value v.  The url.Parse and http.NewRequest error
branches of the sources are unreachable for the constant endpoints and are not
modelled. -/
inductive FetchOutcome where
  | netErr (msg : String)
  | readErr (msg : String)
  | response (statusCode : Nat) (body : Option JsonVal)

/-- HTTP response as observed by the client: status code and body bytes. -/
structure HttpResponse where
  status : Nat
  body : String
deriving Repr, DecidableEq

/-- Inbound HTTP request.  getRoot receives it and, in both sources, never
reads any of its components. -/
structure Request where
  method : String
  path : String
  rawQuery : String
  headers : List (String × String)
  body : String
deriving Repr, DecidableEq

/-- Outcome of calling a function in the httpserver variant, where failure
paths call os.Exit: either a value is returned, or an error value is returned,
or the whole process terminates with an exit code. -/
inductive CallResult (α : Type) where
  | ok (val : α)
  | err (msg : String)
  | exit (code : Nat)

/-- A sample inbound request used to instantiate closed statements. -/
def sampleRequest : Request :=
  { method := "GET", path := "/", rawQuery := "", headers := [], body := "" }

namespace application

/-- getRandomName of src/application/main.go lines 119-168.  The status code of
the upstream response is printed for debugging (lines 143-144) but never
branched on.  The body is checked with json.Valid (line 154): invalid JSON is
the error of line 164, then json.Unmarshal into Names (line 158) may fail,
otherwise the struct is returned. -/
def getRandomName (o : FetchOutcome) : Except String Names :=
  match o with
  | FetchOutcome.netErr m => Except.error ("client: error making http request: " ++ m)
  | FetchOutcome.readErr m => Except.error ("client: could not read response body: " ++ m)
  | FetchOutcome.response _ body =>
    match body with
    | none => Except.error "non-JSON response received"
    | some v =>
      match unmarshalNames v with
      | Except.error m => Except.error ("error unmarshalling JSON: " ++ m)
      | Except.ok n => Except.ok n

/-- getRandomJoke of src/application/main.go lines 182-245.  firstName and
lastName parameterize the outbound URL (the environment answers through the
FetchOutcome argument); there is no json.Valid step here, json.Unmarshal
(line 238) fails directly on a non-JSON body; on success j.Value.Joke is
returned with a nil error (line 244). -/
def getRandomJoke (firstName lastName : String) (o : FetchOutcome) : Except String String :=
  match firstName, lastName, o with
  | _, _, FetchOutcome.netErr m => Except.error ("client: error making http request: " ++ m)
  | _, _, FetchOutcome.readErr m => Except.error ("client: could not read response body: " ++ m)
  | _, _, FetchOutcome.response _ body =>
    match body with
    | none => Except.error ("error unmarshalling JSON: " ++ "invalid character")
    | some v =>
      match unmarshalJoke v with
      | Except.error m => Except.error ("error unmarshalling JSON: " ++ m)
      | Except.ok j => Except.ok j

/-- net/http Error(w, msg, code): writes the status code and then the message
followed by a newline (fmt.Fprintln). -/
def httpError (msg : String) (code : Nat) : HttpResponse :=
  { status := code, body := msg ++ "\n" }

/-- returnCompleteJoke of src/application/main.go lines 252-261: writes the
joke string; the first successful write on a ResponseWriter with no prior
WriteHeader commits status 200.  The write-failure branch (line 258) cannot
occur for an in-memory response and is not modelled. -/
def returnCompleteJoke (joke : String) : HttpResponse :=
  { status := 200, body := joke }

/-- getRoot of src/application/main.go lines 36-86, parameterized by the
result of the getRandomName call and by the getRandomJoke function.  Each
goroutine is awaited to completion (wg.Add(1); go ...; wg.Wait()) before the
following check, so the handler is the sequential composition of the two
stages.  The request r is never read by the source. -/
def getRoot (nameResult : Except String Names)
    (jokeProvider : String → String → Except String String)
    (r : Request) : HttpResponse :=
  match nameResult with
  | Except.error _ => httpError "failed to get name" 500
  | Except.ok name =>
    match jokeProvider name.firstName name.lastName with
    | Except.error _ => httpError "failed to get joke" 500
    | Except.ok joke => returnCompleteJoke joke

/-- main of src/application/main.go lines 88-109 registers getRoot under the
pattern "/" on a ServeMux; that pattern matches every path and method, so
every inbound request is dispatched to getRoot. -/
def serveMux (nameResult : Except String Names)
    (jokeProvider : String → String → Except String String)
    (r : Request) : HttpResponse :=
  getRoot nameResult jokeProvider r

/-- The server handles a sequence of inbound requests; getRoot uses only local
variables, so requests are independent and each is answered by getRoot. -/
def serveRequests (nameResult : Except String Names)
    (jokeProvider : String → String → Except String String)
    (reqs : List Request) : List HttpResponse :=
  reqs.map (serveMux nameResult jokeProvider)

end application

namespace httpserver

/-- getRandomName of src/httpserver/main.go lines 112-157: every failure path
(client.Do error line 134, ReadAll error line 144, json.Unmarshal error line
151, which also covers a non-JSON body) calls os.Exit(1); the only return is
the decoded struct with a nil error. -/
def getRandomName (o : FetchOutcome) : CallResult Names :=
  match o with
  | FetchOutcome.netErr _ => CallResult.exit 1
  | FetchOutcome.readErr _ => CallResult.exit 1
  | FetchOutcome.response _ body =>
    match body with
    | none => CallResult.exit 1
    | some v =>
      match unmarshalNames v with
      | Except.error _ => CallResult.exit 1
      | Except.ok n => CallResult.ok n

/-- getRandomJoke of src/httpserver/main.go lines 171-224: every failure path
(client.Do error line 200, ReadAll error line 210, json.Unmarshal error line
217) calls os.Exit(1); the only return is j.Value.Joke with a nil error. -/
def getRandomJoke (firstName lastName : String) (o : FetchOutcome) : CallResult String :=
  match firstName, lastName, o with
  | _, _, FetchOutcome.netErr _ => CallResult.exit 1
  | _, _, FetchOutcome.readErr _ => CallResult.exit 1
  | _, _, FetchOutcome.response _ body =>
    match body with
    | none => CallResult.exit 1
    | some v =>
      match unmarshalJoke v with
      | Except.error _ => CallResult.exit 1
      | Except.ok j => CallResult.ok j

/-- getRoot of src/httpserver/main.go lines 37-84, parameterized like the
application variant by the observed provider results; the error messages are
capitalized in this file ("Failed to get name" / "Failed to get joke"). -/
def getRoot (nameResult : Except String Names)
    (jokeProvider : String → String → Except String String)
    (r : Request) : HttpResponse :=
  match nameResult with
  | Except.error _ => application.httpError "Failed to get name" 500
  | Except.ok name =>
    match jokeProvider name.firstName name.lastName with
    | Except.error _ => application.httpError "Failed to get joke" 500
    | Except.ok joke => application.returnCompleteJoke joke

end httpserver

/-- C1: if the name-provider call returns an error, the handler (both variants)
responds with status 500, and the response does not depend on the joke
provider at all — the second stage is never consulted. -/
theorem getRoot_name_error_short_circuits :
    ∀ (e : String) (jp jp' : String → String → Except String String) (r : Request),
      (application.getRoot (Except.error e) jp r).status = 500 ∧
      application.getRoot (Except.error e) jp r = application.getRoot (Except.error e) jp' r ∧
      (httpserver.getRoot (Except.error e) jp r).status = 500 ∧
      httpserver.getRoot (Except.error e) jp r = httpserver.getRoot (Except.error e) jp' r :=
  fun _ _ _ _ => ⟨rfl, rfl, rfl, rfl⟩

/-- C2: when the name provider succeeds and the joke provider returns the
string j, the handler responds 200 with body exactly j, unchanged. -/
theorem getRoot_success_body_exact (n : Names)
    (jp : String → String → Except String String) (r : Request) (j : String)
    (h : jp n.firstName n.lastName = Except.ok j) :
    application.getRoot (Except.ok n) jp r = { status := 200, body := j } := by
  simp [application.getRoot, h, application.returnCompleteJoke]

/-- C2 witness: the concrete mocked scenario of the test suite. -/
theorem getRoot_success_body_exact_witness :
    application.getRoot (Except.ok { firstName := "John", lastName := "Doe" })
      (fun _ _ => Except.ok "Mocked joke about John Doe") sampleRequest =
      { status := 200, body := "Mocked joke about John Doe" } :=
  getRoot_success_body_exact { firstName := "John", lastName := "Doe" }
    (fun _ _ => Except.ok "Mocked joke about John Doe") sampleRequest
    "Mocked joke about John Doe" rfl

/-- C3 counterexample: a name-service response with status 404 and a
well-formed JSON body makes getRandomName (both variants) return the name
pair, not an error — the claim that non-2xx statuses fail is false. -/
theorem getRandomName_ok_despite_404 :
    application.getRandomName (FetchOutcome.response 404 (some (JsonVal.jobj
      [("first_name", JsonVal.jstr "John"), ("last_name", JsonVal.jstr "Doe")]))) =
      Except.ok { firstName := "John", lastName := "Doe" } ∧
    httpserver.getRandomName (FetchOutcome.response 404 (some (JsonVal.jobj
      [("first_name", JsonVal.jstr "John"), ("last_name", JsonVal.jstr "Doe")]))) =
      CallResult.ok { firstName := "John", lastName := "Doe" } :=
  ⟨rfl, rfl⟩

/-- C3 amended: getRandomName never inspects the upstream status code (it is
only printed for debugging); the result is identical for any two status codes
with the same body, in both variants. -/
theorem getRandomName_ignores_status :
    ∀ (s1 s2 : Nat) (b : Option JsonVal),
      application.getRandomName (FetchOutcome.response s1 b) =
        application.getRandomName (FetchOutcome.response s2 b) ∧
      httpserver.getRandomName (FetchOutcome.response s1 b) =
        httpserver.getRandomName (FetchOutcome.response s2 b) :=
  fun _ _ _ => ⟨rfl, rfl⟩

/-- C4 counterexample: the empty JSON object lacks both required fields, yet
getRandomName succeeds with a name pair of empty components instead of
failing. -/
theorem getRandomName_empty_object_succeeds :
    application.getRandomName (FetchOutcome.response 200 (some (JsonVal.jobj []))) =
      Except.ok { firstName := "", lastName := "" } :=
  rfl

theorem unmarshalNamesFields_skip :
    ∀ (fs : List (String × JsonVal)) (n : Names),
      (∀ kv ∈ fs, asciiLower kv.1 ≠ "first_name" ∧ asciiLower kv.1 ≠ "last_name") →
      unmarshalNamesFields n fs = Except.ok n
  | [], _, _ => rfl
  | (k, v) :: rest, n, h => by
    have hk := h (k, v) (List.mem_cons_self _ _)
    simp only [unmarshalNamesFields, setNamesField, if_neg hk.1, if_neg hk.2]
    exact unmarshalNamesFields_skip rest n (fun kv hkv => h kv (List.mem_cons_of_mem _ hkv))

/-- C4 amended: a JSON object none of whose keys matches first_name or
last_name (under the ASCII case folding of encoding/json) does not make
getRandomName fail; it succeeds with both components empty. -/
theorem getRandomName_missing_fields_yield_empty (s : Nat) (fs : List (String × JsonVal))
    (h : ∀ kv ∈ fs, asciiLower kv.1 ≠ "first_name" ∧ asciiLower kv.1 ≠ "last_name") :
    application.getRandomName (FetchOutcome.response s (some (JsonVal.jobj fs))) =
      Except.ok { firstName := "", lastName := "" } := by
  simp [application.getRandomName, unmarshalNames, unmarshalNamesFields_skip fs _ h]

/-- C4 amended witness: an object with one unrelated key. -/
theorem getRandomName_missing_fields_yield_empty_witness :
    application.getRandomName (FetchOutcome.response 200 (some (JsonVal.jobj
      [("nick_name", JsonVal.jstr "Bo")]))) =
      Except.ok { firstName := "", lastName := "" } :=
  getRandomName_missing_fields_yield_empty 200 [("nick_name", JsonVal.jstr "Bo")] (by decide)

/-- C5 counterexample: http.Error appends a newline (fmt.Fprintln), so the
error bodies are the fixed messages followed by a newline, not the bare
strings the claim states. -/
theorem getRoot_error_body_has_newline :
    (application.getRoot (Except.error "boom") (fun _ _ => Except.ok "j") sampleRequest).body ≠
      "failed to get name" ∧
    (application.getRoot (Except.ok { firstName := "John", lastName := "Doe" })
      (fun _ _ => Except.error "bad") sampleRequest).body ≠ "failed to get joke" ∧
    (application.getRoot (Except.error "boom") (fun _ _ => Except.ok "j") sampleRequest).body =
      "failed to get name\n" :=
  ⟨by decide, by decide, rfl⟩

/-- C5 amended: any provider failure is surfaced only as status 500 with the
stage-specific fixed message followed by a newline; the response is a constant
independent of the underlying error value, so the cause never appears in it. -/
theorem getRoot_error_responses_fixed (nr : Except String Names)
    (jp : String → String → Except String String) (r : Request) :
    (∀ e, nr = Except.error e →
      application.getRoot nr jp r = { status := 500, body := "failed to get name\n" }) ∧
    (∀ n e, nr = Except.ok n → jp n.firstName n.lastName = Except.error e →
      application.getRoot nr jp r = { status := 500, body := "failed to get joke\n" }) := by
  constructor
  · rintro e rfl
    rfl
  · rintro n e rfl h
    simp [application.getRoot, h, application.httpError]

/-- C5 amended witness: both failure stages at concrete provider errors. -/
theorem getRoot_error_responses_fixed_witness :
    application.getRoot (Except.error "no name") (fun _ _ => Except.ok "j") sampleRequest =
      { status := 500, body := "failed to get name\n" } ∧
    application.getRoot (Except.ok { firstName := "John", lastName := "Doe" })
      (fun _ _ => Except.error "no joke") sampleRequest =
      { status := 500, body := "failed to get joke\n" } :=
  ⟨(getRoot_error_responses_fixed (Except.error "no name") (fun _ _ => Except.ok "j")
      sampleRequest).1 "no name" rfl,
   (getRoot_error_responses_fixed (Except.ok { firstName := "John", lastName := "Doe" })
      (fun _ _ => Except.error "no joke") sampleRequest).2
      { firstName := "John", lastName := "Doe" } "no joke" rfl rfl⟩

/-- C6: the handler reads the joke provider only at exactly the pair returned
by the name provider — two providers agreeing at (firstName, lastName) give
identical responses, so the pair is passed through unchanged. -/
theorem getRoot_name_passthrough (n : Names)
    (jp jp' : String → String → Except String String) (r r' : Request)
    (h : jp n.firstName n.lastName = jp' n.firstName n.lastName) :
    application.getRoot (Except.ok n) jp r = application.getRoot (Except.ok n) jp' r' := by
  simp [application.getRoot, h]

/-- C6 witness: two syntactically different joke providers agreeing at
("John", "Doe"). -/
theorem getRoot_name_passthrough_witness :
    application.getRoot (Except.ok { firstName := "John", lastName := "Doe" })
      (fun a b => Except.ok (a ++ " " ++ b)) sampleRequest =
    application.getRoot (Except.ok { firstName := "John", lastName := "Doe" })
      (fun _ _ => Except.ok "John Doe") sampleRequest :=
  getRoot_name_passthrough { firstName := "John", lastName := "Doe" }
    (fun a b => Except.ok (a ++ " " ++ b)) (fun _ _ => Except.ok "John Doe")
    sampleRequest sampleRequest rfl

/-- C7: with fixed pure providers the handler is deterministic across runs —
serving any number of copies of the same request yields that many copies of
one and the same response. -/
theorem serveRequests_idempotent :
    ∀ (nr : Except String Names) (jp : String → String → Except String String)
      (r : Request) (k : Nat),
      application.serveRequests nr jp (List.replicate k r) =
        List.replicate k (application.getRoot nr jp r) := by
  intro nr jp r k
  simp [application.serveRequests, application.serveMux, List.map_replicate]

/-- C8 counterexample: in the httpserver variant a plain network failure of
the name call terminates the whole process via os.Exit(1) instead of being a
request-scoped error. -/
theorem hs_getRandomName_exits_on_net_failure :
    httpserver.getRandomName (FetchOutcome.netErr "connection refused") = CallResult.exit 1 :=
  rfl

/-- C8 amended: in the httpserver variant every request-scoped failure class
(network failure, unreadable body, non-JSON body, wrong-shape body) makes
getRandomName and getRandomJoke terminate the process with exit code 1, while
the application variant returns the same failures as error values. -/
theorem hs_failures_exit_app_failures_return :
    ∀ (m f l : String) (s : Nat),
      httpserver.getRandomName (FetchOutcome.netErr m) = CallResult.exit 1 ∧
      httpserver.getRandomName (FetchOutcome.readErr m) = CallResult.exit 1 ∧
      httpserver.getRandomName (FetchOutcome.response s none) = CallResult.exit 1 ∧
      httpserver.getRandomName (FetchOutcome.response s (some (JsonVal.jstr m))) =
        CallResult.exit 1 ∧
      httpserver.getRandomJoke f l (FetchOutcome.netErr m) = CallResult.exit 1 ∧
      httpserver.getRandomJoke f l (FetchOutcome.readErr m) = CallResult.exit 1 ∧
      httpserver.getRandomJoke f l (FetchOutcome.response s none) = CallResult.exit 1 ∧
      application.getRandomName (FetchOutcome.netErr m) =
        Except.error ("client: error making http request: " ++ m) ∧
      application.getRandomName (FetchOutcome.response s none) =
        Except.error "non-JSON response received" ∧
      application.getRandomJoke f l (FetchOutcome.netErr m) =
        Except.error ("client: error making http request: " ++ m) :=
  fun _ _ _ _ => ⟨rfl, rfl, rfl, rfl, rfl, rfl, rfl, rfl, rfl, rfl⟩

/-- Shape predicate on the JSON value found under the key value: it is null,
or an object whose joke entries (under ASCII case folding) are all null — the
decoded shapes in which no value.joke string is present.  Used only to state
the amended C9. -/
def LacksJokeInValue (v : JsonVal) : Prop :=
  v = JsonVal.jnull ∨
    ∃ gs, v = JsonVal.jobj gs ∧ ∀ kv ∈ gs, asciiLower kv.1 = "joke" → kv.2 = JsonVal.jnull

theorem unmarshalValueFields_null_jokes :
    ∀ (gs : List (String × JsonVal)) (cur : String),
      (∀ kv ∈ gs, asciiLower kv.1 = "joke" → kv.2 = JsonVal.jnull) →
      unmarshalValueFields cur gs = Except.ok cur
  | [], _, _ => rfl
  | (k, v) :: rest, cur, h => by
    by_cases hk : asciiLower k = "joke"
    · have hv := h (k, v) (List.mem_cons_self _ _) hk
      simp only at hv
      subst hv
      simp only [unmarshalValueFields, if_pos hk]
      exact unmarshalValueFields_null_jokes rest cur (fun kv hkv => h kv (List.mem_cons_of_mem _ hkv))
    · simp only [unmarshalValueFields, if_neg hk]
      exact unmarshalValueFields_null_jokes rest cur (fun kv hkv => h kv (List.mem_cons_of_mem _ hkv))

theorem unmarshalJokeFields_lacks :
    ∀ (fs : List (String × JsonVal)) (cur : String),
      (∀ kv ∈ fs, asciiLower kv.1 = "value" → LacksJokeInValue kv.2) →
      unmarshalJokeFields cur fs = Except.ok cur
  | [], _, _ => rfl
  | (k, v) :: rest, cur, h => by
    by_cases hk : asciiLower k = "value"
    · have hv := h (k, v) (List.mem_cons_self _ _) hk
      have hval : unmarshalJokeValue cur v = Except.ok cur := by
        rcases hv with rfl | ⟨gs, rfl, hgs⟩
        · rfl
        · exact unmarshalValueFields_null_jokes gs cur hgs
      simp only [unmarshalJokeFields, if_pos hk, hval]
      exact unmarshalJokeFields_lacks rest cur (fun kv hkv => h kv (List.mem_cons_of_mem _ hkv))
    · simp only [unmarshalJokeFields, if_neg hk]
      exact unmarshalJokeFields_lacks rest cur (fun kv hkv => h kv (List.mem_cons_of_mem _ hkv))

/-- C9 amended: for joke-service bodies that are JSON objects decoding cleanly
without a value.joke string (value absent, null, or an object with joke
absent or null), getRandomJoke returns the empty string with no error and the
handler responds 200 with an empty body.  Bodies whose shape mismatches the
struct (see the counterexample) error instead. -/
theorem getRandomJoke_missing_joke_gives_empty_200 (n : Names) (s : Nat)
    (fs : List (String × JsonVal)) (r : Request)
    (h : ∀ kv ∈ fs, asciiLower kv.1 = "value" → LacksJokeInValue kv.2) :
    application.getRandomJoke n.firstName n.lastName
      (FetchOutcome.response s (some (JsonVal.jobj fs))) = Except.ok "" ∧
    application.getRoot (Except.ok n)
      (fun a b => application.getRandomJoke a b
        (FetchOutcome.response s (some (JsonVal.jobj fs)))) r =
      { status := 200, body := "" } := by
  have hj : unmarshalJoke (JsonVal.jobj fs) = Except.ok "" := unmarshalJokeFields_lacks fs "" h
  constructor
  · simp [application.getRandomJoke, hj]
  · simp [application.getRoot, application.getRandomJoke, hj, application.returnCompleteJoke]

/-- C9 amended witness: body with an empty value object. -/
theorem getRandomJoke_missing_joke_gives_empty_200_witness :
    application.getRandomJoke "John" "Doe"
      (FetchOutcome.response 200 (some (JsonVal.jobj [("value", JsonVal.jobj [])]))) =
      Except.ok "" ∧
    application.getRoot (Except.ok { firstName := "John", lastName := "Doe" })
      (fun a b => application.getRandomJoke a b
        (FetchOutcome.response 200 (some (JsonVal.jobj [("value", JsonVal.jobj [])]))))
      sampleRequest = { status := 200, body := "" } :=
  getRandomJoke_missing_joke_gives_empty_200 { firstName := "John", lastName := "Doe" } 200
    [("value", JsonVal.jobj [])] sampleRequest
    (fun kv hkv _ => by
      rcases List.mem_singleton.mp hkv with rfl
      exact Or.inr ⟨[], rfl, by simp⟩)

/-- C9 counterexample: a valid-JSON body lacking a value.joke string but with
value bound to a string makes getRandomJoke error and the handler respond
500, not 200 with an empty body. -/
theorem getRandomJoke_value_type_mismatch_errors :
    application.getRandomJoke "John" "Doe" (FetchOutcome.response 200
      (some (JsonVal.jobj [("value", JsonVal.jstr "hello")]))) =
      Except.error ("error unmarshalling JSON: " ++
        "cannot unmarshal JSON value into field value of type struct") ∧
    application.getRoot (Except.ok { firstName := "John", lastName := "Doe" })
      (fun a b => application.getRandomJoke a b (FetchOutcome.response 200
        (some (JsonVal.jobj [("value", JsonVal.jstr "hello")])))) sampleRequest =
      { status := 500, body := "failed to get joke\n" } :=
  ⟨rfl, rfl⟩

/-- C10: the response never depends on the inbound request — the mux routes
every request to getRoot, and getRoot never reads any component of it, so any
two requests (any method, path, query, headers, body) get identical
responses under the same provider behaviour. -/
theorem serveMux_request_independent :
    ∀ (nr : Except String Names) (jp : String → String → Except String String)
      (r r' : Request),
      application.serveMux nr jp r = application.serveMux nr jp r' :=
  fun _ _ _ _ => rfl
